import Mathlib

/-!
Shallow embedding of the go-news-agg pipeline, translated from the Go
sources:
  - src/internal/newsapi/integration_test.go (RateLimiter, NewsAPIClient:
    UpdateFromHeaders, WaitIfNeeded, FetchNewsPage, extractRateLimits,
    handleErrorResponse),
  - src/internal/newsapi/models.go (data model, Validate, IsError, ToError),
  - src/internal/newsapi/downloader.go (DownloadAllNewsToFile loop),
  - src/internal/kafka_producer/producer.go (Producer: PublishWithContext,
    Close).

Modelling conventions:
  - `time.Time` values are Unix seconds as `Int`; Go's zero `time.Time`
    (0001-01-01T00:00:00Z) is `zeroTime`, the actual Unix-second value of
    that instant.  `time.Duration` values are whole seconds as `Int`
    (every duration appearing in the modelled code is a whole number of
    seconds).
  - Go `int` is `Int`; Go integer division truncates toward zero, which is
    `Int.div`.
  - HTTP headers: only the three X-RateLimit headers are read by the code.
    A header that is absent, or whose value does not parse with
    strconv.Atoi/ParseInt, leaves the corresponding state untouched; both
    cases are modelled as `none`.
  - The HTTP body is modelled at the granularity the code observes it:
    ioutil.ReadAll either fails or yields bytes, and json.Unmarshal on
    those bytes either fails or yields a NewsAPIResponse.
  - External effects (HTTP transport, filesystem, Kafka broker, context
    cancellation, clock) are supplied by an explicit environment, so every
    function is a pure function of its inputs.
-/

namespace NewsAgg

/-- Unix-second value of Go's zero `time.Time`, 0001-01-01T00:00:00Z. -/
def zeroTime : Int := -62135596800

/-- Go integer division (truncation toward zero), as used by
`(totalArticlesFound + req.PageSize - 1) / req.PageSize`. -/
def goDiv (a b : Int) : Int := Int.tdiv a b

/-- The X-RateLimit response headers, as observed by the code: `none`
models an absent or non-parsing header (both leave state untouched). -/
structure Headers where
  limit : Option Int
  remaining : Option Int
  reset : Option Int
  deriving Repr, DecidableEq

/-- NewsAPILimits from models.go. -/
structure NewsAPILimits where
  limit : Int
  remaining : Int
  reset : Int
  deriving Repr, DecidableEq

/-- RateLimiter state from integration_test.go (the mutex is concurrency
plumbing with no sequential semantics). -/
structure RateLimiter where
  remaining : Int
  resetTime : Int
  limit : Int
  deriving Repr, DecidableEq

/-- NewRateLimiter: remaining 1000, reset one hour from now, limit 1000. -/
def RateLimiter.init (now : Int) : RateLimiter :=
  { remaining := 1000, resetTime := now + 3600, limit := 1000 }

/-- UpdateFromHeaders: each present (and parsing) header overwrites the
corresponding field; absent headers leave it untouched. -/
def RateLimiter.updateFromHeaders (r : RateLimiter) (h : Headers) : RateLimiter :=
  { limit := h.limit.getD r.limit
    remaining := h.remaining.getD r.remaining
    resetTime := h.reset.getD r.resetTime }

/-- Source of a news article (models.go). -/
structure Source where
  id : String
  name : String
  deriving Repr, DecidableEq

/-- Article (models.go); publishedAt as Unix seconds. -/
structure Article where
  source : Source
  author : String
  title : String
  description : String
  url : String
  urlToImage : String
  publishedAt : Int
  content : String
  deriving Repr, DecidableEq

/-- NewsAPIResponse (models.go). -/
structure NewsAPIResponse where
  status : String
  totalResults : Int
  articles : List Article
  code : String
  message : String
  deriving Repr, DecidableEq

/-- IsError (models.go): `r.Status != "ok" || r.Code != ""`. -/
def NewsAPIResponse.isError (r : NewsAPIResponse) : Bool :=
  r.status != "ok" || r.code != ""

/-- The Go error values produced by the modelled code, discriminated the
way the code discriminates them (by dynamic type / wrapping). -/
inductive GoError where
  /-- ctx.Err() after cancellation: a cancellation signal. -/
  | ctxCancelled
  /-- ValidationError (models.go). -/
  | validation (fieldName msg : String)
  /-- RateLimitError (models.go). -/
  | rateLimit (retryAfterSeconds resetTime remainingCalls : Int)
  /-- NewsAPIError (models.go); structured API error. -/
  | newsAPIError (statusCode : Int) (code message : String)
  /-- failed to read response body. -/
  | readBodyFailed
  /-- failed to unmarshal JSON response. -/
  | unmarshalFailed
  /-- transport-level failure of httpClient.GetWithContext. -/
  | transport (message : String)
  /-- FileOperationError (models.go). -/
  | fileOp (operation path : String)
  /-- KafkaError (models.go). -/
  | kafka (topic broker : String)
  /-- "producer is closed" (producer.go). -/
  | producerClosed
  /-- "topic cannot be empty" (producer.go). -/
  | emptyTopic
  /-- "failed to produce message" (producer.go). -/
  | produceFailed
  /-- "delivery failed" (producer.go). -/
  | deliveryFailed
  /-- "publish timeout after 30 seconds" (producer.go). -/
  | publishTimeout
  /-- fmt.Errorf("page %d: %w", ...) wrapping in the downloader. -/
  | pageError (page : Int) (e : GoError)
  /-- fmt.Errorf("failed to save page %d: %w", ...) wrapping. -/
  | savePageError (page : Int) (e : GoError)
  /-- fmt.Errorf("kafka publish for %s: %w", ...) wrapping. -/
  | kafkaPublishError (path : String) (e : GoError)
  deriving Repr, DecidableEq

/-- Result of the rate limiter's WaitIfNeeded. -/
inductive WaitResult where
  /-- returned nil without waiting. -/
  | noWait
  /-- slept for the given number of seconds, then returned nil. -/
  | waited (durationSeconds : Int)
  /-- the wait was interrupted: returns ctx.Err(). -/
  | err (e : GoError)
  deriving Repr, DecidableEq

/-- WaitIfNeeded (integration_test.go): if remaining > 10 return at once;
if remaining <= 5 and the reset time is still in the future, sleep until
resetTime + 1s unless the context is cancelled during the sleep; in every
other case return at once.  `now` is the time.Now() reading,
`cancelledDuringWait` tells whether ctx.Done fires before the timer. -/
def RateLimiter.waitIfNeeded (r : RateLimiter) (now : Int)
    (cancelledDuringWait : Bool) : WaitResult :=
  if r.remaining > 10 then .noWait
  else if r.remaining ≤ 5 ∧ now < r.resetTime then
    if cancelledDuringWait then .err .ctxCancelled
    else .waited (r.resetTime - now + 1)
  else .noWait

/-- What json.Unmarshal sees in a successfully-read body. -/
inductive BodyContent where
  /-- bytes that do not unmarshal into NewsAPIResponse. -/
  | unparsable (raw : String)
  /-- bytes that unmarshal into the given NewsAPIResponse. -/
  | parsed (resp : NewsAPIResponse)
  deriving Repr, DecidableEq

/-- Outcome of ioutil.ReadAll on the response body. -/
inductive BodyRead where
  /-- ReadAll failed. -/
  | readError
  /-- ReadAll yielded these bytes. -/
  | content (c : BodyContent)
  deriving Repr, DecidableEq

/-- A received HTTP response, as the code observes it. -/
structure HttpResponse where
  statusCode : Int
  headers : Headers
  body : BodyRead
  deriving Repr, DecidableEq

/-- Config (the fields the modelled code reads). -/
structure Config where
  maxPageSize : Int
  baseURL : String
  defaultRateLimitDelaySeconds : Int
  kafkaBroker : String
  kafkaTopic : String
  timeoutSeconds : Int
  outputDir : String
  deriving Repr, DecidableEq

/-- The (resp, limits, err) triple FetchNewsPage returns. -/
structure FetchReturn where
  resp : Option NewsAPIResponse
  limits : Option NewsAPILimits
  err : Option GoError
  deriving Repr, DecidableEq

/-- extractRateLimits (integration_test.go): starts from the zero-valued
NewsAPILimits and overwrites each field whose header is present and
parses. -/
def extractRateLimits (h : Headers) : NewsAPILimits :=
  { limit := h.limit.getD 0
    remaining := h.remaining.getD 0
    reset := h.reset.getD zeroTime }

/-- handleErrorResponse (integration_test.go): parse the body as a
NewsAPIResponse; on parse failure a generic NewsAPIError with the raw
body text; on parse success either the structured error (IsError) or a
fallback generic NewsAPIError.  The limits slot of the return is nil on
every branch. -/
def handleErrorResponse (statusCode : Int) (c : BodyContent) : FetchReturn :=
  match c with
  | .unparsable raw =>
      { resp := none, limits := none
        err := some (.newsAPIError statusCode ""
          ("HTTP " ++ toString statusCode ++ ": " ++ raw)) }
  | .parsed r =>
      if r.isError then
        { resp := none, limits := none
          err := some (.newsAPIError statusCode r.code r.message) }
      else
        { resp := none, limits := none
          err := some (.newsAPIError statusCode ""
            ("HTTP " ++ toString statusCode)) }

/-- FetchNewsPage (integration_test.go) from the point an HTTP response
has been received (the earlier steps — rate-limit wait, URL building,
transport — return before any response exists and are environment
events in the orchestrator model).  In order: update the rate limiter
from the headers, extract the limits snapshot, handle 429 (body never
inspected), read the body, handle status /= 200 via handleErrorResponse,
unmarshal, convert a self-reported API error, or succeed.  Returns the
updated rate limiter together with the (resp, limits, err) triple. -/
def fetchNewsPageAfterResponse (cfg : Config) (rl : RateLimiter) (now : Int)
    (resp : HttpResponse) : RateLimiter × FetchReturn :=
  let rl2 := rl.updateFromHeaders resp.headers
  let limits := extractRateLimits resp.headers
  if resp.statusCode = 429 then
    let retryAfter :=
      if now < limits.reset then limits.reset - now + 1
      else cfg.defaultRateLimitDelaySeconds
    (rl2, { resp := none, limits := some limits
            err := some (.rateLimit retryAfter limits.reset limits.remaining) })
  else
    match resp.body with
    | .readError => (rl2, { resp := none, limits := some limits, err := some .readBodyFailed })
    | .content c =>
      if resp.statusCode ≠ 200 then (rl2, handleErrorResponse resp.statusCode c)
      else
        match c with
        | .unparsable _ =>
            (rl2, { resp := none, limits := some limits, err := some .unmarshalFailed })
        | .parsed r =>
            if r.isError then
              (rl2, { resp := none, limits := some limits
                      err := some (.newsAPIError resp.statusCode r.code r.message) })
            else
              (rl2, { resp := some r, limits := some limits, err := none })

/-- DownloadRequest (models.go); from/to as Unix seconds, 0 standing for
the zero time (neither is read by the modelled fragment). -/
structure DownloadRequest where
  apiKey : String
  query : String
  country : String
  fromTime : Int
  toTime : Int
  language : String
  sortBy : String
  pageSize : Int
  startPage : Int
  deriving Repr, DecidableEq

/-- Validate (models.go), in source order; `none` means valid. -/
def DownloadRequest.validate (r : DownloadRequest) : Option GoError :=
  if r.apiKey = "" then some (.validation "api_key" "cannot be empty")
  else if r.country = "" ∧ r.query = "" then
    some (.validation "country/query" "either country or query must be specified")
  else if r.pageSize ≤ 0 ∨ r.pageSize > 100 then
    some (.validation "page_size" "must be between 1 and 100")
  else if r.startPage < 1 then
    some (.validation "start_page" "must be >= 1")
  else if r.sortBy ≠ "" ∧ r.sortBy ≠ "relevancy" ∧ r.sortBy ≠ "popularity"
          ∧ r.sortBy ≠ "publishedAt" then
    some (.validation "sort_by" "must be one of: relevancy, popularity, publishedAt")
  else none

/-- DownloadResult (models.go); times as Unix seconds, duration in
seconds; errors keep the GoError values appended by the loop. -/
structure DownloadResult where
  totalArticles : Int
  pagesDownloaded : Int
  filePaths : List String
  startTime : Int
  endTime : Int
  duration : Int
  errors : List GoError
  deriving Repr, DecidableEq

/-- What FetchNewsPage returns to the downloader for one call: the
successful response, or the error the client classified. -/
inductive FetchOutcome where
  | success (resp : NewsAPIResponse)
  | failure (e : GoError)
  deriving Repr, DecidableEq

/-- Outcome of savePageToFile for one page. -/
inductive SaveOutcome where
  /-- savePageToFile returned this path. -/
  | saved (path : String)
  /-- savePageToFile returned this error (a FileOperationError). -/
  | saveFailed (e : GoError)
  deriving Repr, DecidableEq

/-- Outcome of publishFilePath for one page. -/
inductive PublishOutcome where
  | published
  | publishFailed (e : GoError)
  deriving Repr, DecidableEq

/-- The external events of one iteration of the download loop: the
ctx.Done reading at the top, what FetchNewsPage produces, whether the
rate-limit sleep is interrupted, what savePageToFile and publishFilePath
produce, and whether the inter-page delay is interrupted.  Fields that a
given iteration never reaches are simply ignored. -/
structure IterEnv where
  cancelledAtTop : Bool
  fetch : FetchOutcome
  cancelledDuringRateLimitWait : Bool
  save : SaveOutcome
  publish : PublishOutcome
  cancelledDuringDelay : Bool
  deriving Repr, DecidableEq

/-- How one invocation of DownloadAllNewsToFile returns. -/
inductive RunExit where
  /-- the loop exited normally (currentPage > totalPages). -/
  | completed
  /-- returned early with a cancellation error (top-of-loop check,
  rate-limit sleep, or inter-page delay). -/
  | cancelled
  /-- fmt.Errorf("API error on page %d: %w", ...): fatal structured API
  error. -/
  | fatal (page : Int) (e : GoError)
  /-- model artifact: the supplied event list ran out while the loop
  wanted another iteration. -/
  | outOfFuel
  deriving Repr, DecidableEq

/-- The loop-local state of DownloadAllNewsToFile: the two counters, the
accumulated result, and (as a ghost trace for the theorems) the list of
page numbers passed to FetchNewsPage, in call order. -/
structure LoopState where
  currentPage : Int
  totalPages : Int
  result : DownloadResult
  fetched : List Int
  deriving Repr, DecidableEq

/-- One iteration of the body of the download loop (downloader.go),
entered with currentPage ≤ totalPages.  Returns the new state and
`some exit` when the iteration returns out of the function, `none` when
it falls through to the next loop test. -/
def stepIter (req : DownloadRequest) (env : IterEnv) (s : LoopState) :
    LoopState × Option RunExit :=
  if env.cancelledAtTop then (s, some .cancelled)
  else
    let s1 : LoopState := { s with fetched := s.fetched ++ [s.currentPage] }
    match env.fetch with
    | .failure (.rateLimit _ _ _) =>
        if env.cancelledDuringRateLimitWait then (s1, some .cancelled)
        else (s1, none)
    | .failure e =>
        let s2 := { s1 with result :=
          { s1.result with errors := s1.result.errors ++ [.pageError s1.currentPage e] } }
        match e with
        | .newsAPIError sc c m =>
            (s2, some (.fatal s2.currentPage (.newsAPIError sc c m)))
        | _ => ({ s2 with currentPage := s2.currentPage + 1 }, none)
    | .success resp =>
        match env.save with
        | .saveFailed e =>
            ({ s1 with
                result := { s1.result with
                  errors := s1.result.errors ++ [.savePageError s1.currentPage e] }
                currentPage := s1.currentPage + 1 }, none)
        | .saved path =>
            let s2 : LoopState := { s1 with result := { s1.result with
                filePaths := s1.result.filePaths ++ [path]
                pagesDownloaded := s1.result.pagesDownloaded + 1 } }
            let s3 : LoopState :=
              match env.publish with
              | .published => s2
              | .publishFailed e =>
                  { s2 with result := { s2.result with
                      errors := s2.result.errors ++ [.kafkaPublishError path e] } }
            let s4 : LoopState :=
              if s3.currentPage = req.startPage then
                { s3 with
                    totalPages := goDiv (resp.totalResults + req.pageSize - 1) req.pageSize
                    result := { s3.result with totalArticles := resp.totalResults } }
              else s3
            let s5 := { s4 with currentPage := s4.currentPage + 1 }
            if s5.currentPage ≤ s5.totalPages then
              if env.cancelledDuringDelay then (s5, some .cancelled) else (s5, none)
            else (s5, none)

/-- The download loop (downloader.go): while currentPage ≤ totalPages run
one iteration; on normal exit stamp endTime and duration with the
finishing clock reading. -/
def runLoop (req : DownloadRequest) (finishTime : Int) :
    List IterEnv → LoopState → LoopState × RunExit
  | envs, s =>
    if s.currentPage > s.totalPages then
      ({ s with result := { s.result with
          endTime := finishTime
          duration := finishTime - s.result.startTime } }, .completed)
    else
      match envs with
      | [] => (s, .outOfFuel)
      | env :: rest =>
        match stepIter req env s with
        | (s2, some exit) => (s2, exit)
        | (s2, none) => runLoop req finishTime rest s2

/-- DownloadAllNewsToFile (downloader.go): validate the request (on
failure return before creating a result), initialise the result and the
counters (currentPage := startPage, totalPages := 1), and run the loop.
`startTime` is the clock reading at entry and `finishTime` the reading
at normal loop exit. -/
def downloadAllNewsToFile (req : DownloadRequest) (startTime finishTime : Int)
    (envs : List IterEnv) : Except GoError (LoopState × RunExit) :=
  match req.validate with
  | some e => .error e
  | none =>
    let init : LoopState :=
      { currentPage := req.startPage
        totalPages := 1
        result :=
          { totalArticles := 0, pagesDownloaded := 0, filePaths := []
            startTime := startTime, endTime := zeroTime, duration := 0
            errors := [] }
        fetched := [] }
    .ok (runLoop req finishTime envs init)

/-- Producer state (producer.go); the underlying librdkafka handle and
the mutex are external. -/
structure Producer where
  closed : Bool
  deriving Repr, DecidableEq

/-- Observable interactions with the broker client. -/
inductive BrokerAction where
  /-- producer.Produce of this message to this topic. -/
  | produce (topic message : String)
  /-- producer.Flush with this timeout in milliseconds. -/
  | flush (timeoutMs : Int)
  /-- producer.Close. -/
  | closeClient
  deriving Repr, DecidableEq

/-- External events of one PublishWithContext call that reaches the
broker: whether Produce itself fails, and what arrives first on the
delivery channel / ctx.Done / the 30 s timer. -/
inductive DeliveryOutcome where
  /-- delivery report with no error. -/
  | delivered
  /-- delivery report carrying a TopicPartition error. -/
  | deliveryError
  /-- ctx.Done fired first. -/
  | ctxDone
  /-- the 30-second timer fired first. -/
  | timeout
  deriving Repr, DecidableEq

/-- Environment for one PublishWithContext call. -/
structure PublishEnv where
  produceFails : Bool
  delivery : DeliveryOutcome
  deriving Repr, DecidableEq

/-- PublishWithContext (producer.go): fail when closed (before any broker
contact), fail on empty topic, Produce, then wait on the dedicated
delivery channel bounded by ctx and a 30 s timer.  Returns the new
state, the returned error, and the broker actions performed. -/
def publishWithContext (p : Producer) (topic message : String)
    (env : PublishEnv) : Producer × Option GoError × List BrokerAction :=
  if p.closed then (p, some .producerClosed, [])
  else if topic = "" then (p, some .emptyTopic, [])
  else if env.produceFails then (p, some .produceFailed, [.produce topic message])
  else
    match env.delivery with
    | .delivered => (p, none, [.produce topic message])
    | .deliveryError => (p, some .deliveryFailed, [.produce topic message])
    | .ctxDone => (p, some .ctxCancelled, [.produce topic message])
    | .timeout => (p, some .publishTimeout, [.produce topic message])

/-- Close (producer.go): a no-op returning nil when already closed;
otherwise mark closed, Flush with a 30 s bound, close the client, and
return nil. -/
def closeProducer (p : Producer) : Producer × Option GoError × List BrokerAction :=
  if p.closed then (p, none, [])
  else ({ closed := true }, none, [.flush 30000, .closeClient])

/-! Concrete inputs used by the counterexamples and witnesses. -/

/-- A sample configuration. -/
def cfg0 : Config :=
  { maxPageSize := 100, baseURL := "https://newsapi.org/v2/top-headlines"
    defaultRateLimitDelaySeconds := 10, kafkaBroker := "localhost:9092"
    kafkaTopic := "news_files", timeoutSeconds := 30, outputDir := "/tmp/out" }

/-- Sample rate-limit headers: limit 100, remaining 50, reset at Unix 5000. -/
def hdr0 : Headers := { limit := some 100, remaining := some 50, reset := some 5000 }

/-- A body that self-reports an API error. -/
def errResp : NewsAPIResponse :=
  { status := "error", totalResults := 0, articles := [], code := "apiKeyInvalid"
    message := "bad key" }

/-- A successful first-page body with 45 total results. -/
def okResp45 : NewsAPIResponse :=
  { status := "ok", totalResults := 45, articles := [], code := "", message := "" }

/-- A valid request with startPage 1 and pageSize 20. -/
def req1 : DownloadRequest :=
  { apiKey := "k", query := "", country := "us", fromTime := 0, toTime := 0
    language := "", sortBy := "", pageSize := 20, startPage := 1 }

/-- The same request with startPage 2 (still valid: startPage ≥ 1). -/
def req2 : DownloadRequest := { req1 with startPage := 2 }

/-- The loop state at entry of a run of req1 starting at clock 0. -/
def s0 : LoopState :=
  { currentPage := 1, totalPages := 1
    result := { totalArticles := 0, pagesDownloaded := 0, filePaths := []
                startTime := 0, endTime := zeroTime, duration := 0, errors := [] }
    fetched := [] }

/-- An iteration in which everything succeeds and the page body is okResp45. -/
def envOk (p : String) : IterEnv :=
  { cancelledAtTop := false, fetch := .success okResp45
    cancelledDuringRateLimitWait := false, save := .saved p
    publish := .published, cancelledDuringDelay := false }

/-- An iteration whose fetch returns a structured API error. -/
def envFatal : IterEnv :=
  { envOk "x" with fetch := .failure (.newsAPIError 401 "apiKeyInvalid" "bad") }

/-- An iteration whose fetch succeeds but whose save fails. -/
def envSaveFail : IterEnv :=
  { envOk "p1" with save := .saveFailed (.fileOp "write file" "p1") }

/-- An iteration whose save succeeds but whose Kafka publish fails. -/
def envPubFail : IterEnv :=
  { envOk "p1" with publish := .publishFailed (.kafka "news_files" "localhost:9092") }

/-- An iteration at whose top the context is already cancelled. -/
def envCancel : IterEnv := { envOk "p" with cancelledAtTop := true }

/-- An iteration whose fetch returns a rate-limit signal and whose
rate-limit sleep is not interrupted. -/
def rlIterEnv (ra rt rc : Int) : IterEnv :=
  { cancelledAtTop := false, fetch := .failure (.rateLimit ra rt rc)
    cancelledDuringRateLimitWait := false, save := .saved ""
    publish := .published, cancelledDuringDelay := false }

/-- A 400 response whose body parses as a structured error payload. -/
def c1resp400 : HttpResponse :=
  { statusCode := 400, headers := hdr0, body := .content (.parsed errResp) }

/-- A 429 response. -/
def resp429 : HttpResponse := { statusCode := 429, headers := hdr0, body := .readError }

/-! ## Loop invariants shared by the claim theorems -/

/-- An iteration that is not cancelled at the top appends its current
page to the fetch trace exactly once. -/
theorem stepIter_fetched_eq (req : DownloadRequest) (env : IterEnv) (s : LoopState)
    (h : env.cancelledAtTop = false) :
    (stepIter req env s).1.fetched = s.fetched ++ [s.currentPage] := by
  rcases env with ⟨ct, f, cw, sv, pb, cd⟩
  simp only at h
  subst h
  cases f with
  | failure e =>
      cases e <;> cases cw <;> simp [stepIter]
  | success resp =>
      cases sv with
      | saveFailed e => simp [stepIter]
      | saved path =>
          cases pb <;> cases cd <;>
            (simp only [stepIter]
             split <;> (try split) <;> (try split) <;> simp_all)

/-- Every iteration extends the fetch trace (by nothing or by one page). -/
theorem stepIter_fetched_append (req : DownloadRequest) (env : IterEnv)
    (s : LoopState) :
    ∃ t, (stepIter req env s).1.fetched = s.fetched ++ t := by
  cases h : env.cancelledAtTop with
  | true => exact ⟨[], by simp [stepIter, h]⟩
  | false => exact ⟨[s.currentPage], stepIter_fetched_eq req env s h⟩

/-- The loop only extends the fetch trace. -/
theorem runLoop_fetched_append (req : DownloadRequest) (ft : Int) :
    ∀ (envs : List IterEnv) (s : LoopState),
      ∃ t, (runLoop req ft envs s).1.fetched = s.fetched ++ t := by
  intro envs
  induction envs with
  | nil =>
      intro s
      unfold runLoop
      by_cases hc : s.currentPage > s.totalPages
      · rw [if_pos hc]
        exact ⟨[], by simp⟩
      · rw [if_neg hc]
        exact ⟨[], by simp⟩
  | cons e rest ih =>
      intro s
      unfold runLoop
      by_cases hc : s.currentPage > s.totalPages
      · rw [if_pos hc]
        exact ⟨[], by simp⟩
      · rw [if_neg hc]
        rcases hstep : stepIter req e s with ⟨s2, ex⟩
        rcases stepIter_fetched_append req e s with ⟨t0, ht0⟩
        rw [hstep] at ht0
        cases ex with
        | some x =>
            refine ⟨t0, ?_⟩
            simp only [hstep]
            exact ht0
        | none =>
            rcases ih s2 with ⟨t1, ht1⟩
            refine ⟨t0 ++ t1, ?_⟩
            simp only [hstep]
            rw [ht1, show s2.fetched = s.fetched ++ t0 from ht0, List.append_assoc]

/-- No iteration touches endTime or duration. -/
theorem stepIter_unstamped (req : DownloadRequest) (env : IterEnv) (s : LoopState) :
    (stepIter req env s).1.result.endTime = s.result.endTime ∧
    (stepIter req env s).1.result.duration = s.result.duration := by
  rcases env with ⟨ct, f, cw, sv, pb, cd⟩
  cases ct with
  | true => simp [stepIter]
  | false =>
      cases f with
      | failure e =>
          cases e <;> cases cw <;> simp [stepIter]
      | success resp =>
          cases sv with
          | saveFailed e => simp [stepIter]
          | saved path =>
              cases pb <;> cases cd <;>
                (simp only [stepIter]
                 split <;> (try split) <;> (try split) <;> simp_all)

/-- Unless the loop exits normally, endTime and duration are returned as
they were at entry. -/
theorem runLoop_unstamped (req : DownloadRequest) (ft : Int) :
    ∀ (envs : List IterEnv) (s : LoopState),
      (runLoop req ft envs s).2 ≠ .completed →
      (runLoop req ft envs s).1.result.endTime = s.result.endTime ∧
      (runLoop req ft envs s).1.result.duration = s.result.duration := by
  intro envs
  induction envs with
  | nil =>
      intro s h
      unfold runLoop at h ⊢
      by_cases hc : s.currentPage > s.totalPages
      · rw [if_pos hc] at h
        exact absurd rfl h
      · rw [if_neg hc]
        exact ⟨rfl, rfl⟩
  | cons e rest ih =>
      intro s h
      unfold runLoop at h ⊢
      by_cases hc : s.currentPage > s.totalPages
      · rw [if_pos hc] at h
        exact absurd rfl h
      · rw [if_neg hc] at h ⊢
        rcases hstep : stepIter req e s with ⟨s2, ex⟩
        have hst := stepIter_unstamped req e s
        rw [hstep] at hst
        cases ex with
        | some x =>
            simp only [hstep]
            exact hst
        | none =>
            simp only [hstep] at h ⊢
            have hih := ih s2 h
            exact ⟨hih.1.trans hst.1, hih.2.trans hst.2⟩

/-! ## Claim theorems -/

/-- Claim C1 is false on the code: for the received 400 response
`c1resp400`, whose body parses as a structured error payload,
FetchNewsPage takes the handleErrorResponse path and returns a nil
rate-limit snapshot (together with the structured NewsAPIError), so the
snapshot is not present on every path where an HTTP response is
received. -/
theorem C1_counterexample :
    (fetchNewsPageAfterResponse cfg0 (RateLimiter.init 0) 0 c1resp400).2.limits = none ∧
    (fetchNewsPageAfterResponse cfg0 (RateLimiter.init 0) 0 c1resp400).2.err =
      some (.newsAPIError 400 "apiKeyInvalid" "bad key") :=
  ⟨rfl, rfl⟩

/-- Claim C1, amended: on a received response the rate-limit snapshot is
present — and then equals the snapshot extracted from the response
headers — on the 429 path, on the body-read-failure path, and on every
status-200 path, but it is nil exactly on the path where the status is
neither 200 nor 429 and the body was read (handleErrorResponse returns a
nil snapshot on every one of its branches). -/
theorem C1_amended_snapshot (cfg : Config) (rl : RateLimiter) (now : Int)
    (resp : HttpResponse) :
    ((fetchNewsPageAfterResponse cfg rl now resp).2.limits = none ↔
      resp.statusCode ≠ 429 ∧ resp.statusCode ≠ 200 ∧
        ∃ c, resp.body = BodyRead.content c) ∧
    ((fetchNewsPageAfterResponse cfg rl now resp).2.limits = none ∨
      (fetchNewsPageAfterResponse cfg rl now resp).2.limits =
        some (extractRateLimits resp.headers)) := by
  rcases resp with ⟨sc, hd, b⟩
  by_cases h429 : sc = 429
  · subst h429
    simp [fetchNewsPageAfterResponse]
  · cases b with
    | readError =>
        simp [fetchNewsPageAfterResponse, h429]
    | content c =>
        by_cases h200 : sc = 200
        · subst h200
          cases c with
          | unparsable raw => simp [fetchNewsPageAfterResponse, h429]
          | parsed r =>
              by_cases he : r.isError <;>
                simp [fetchNewsPageAfterResponse, h429, he]
        · cases c with
          | unparsable raw =>
              simp [fetchNewsPageAfterResponse, handleErrorResponse, h429, h200]
          | parsed r =>
              by_cases he : r.isError <;>
                simp [fetchNewsPageAfterResponse, handleErrorResponse, h429, h200, he]

/-- Claim C6: WaitIfNeeded returns immediately when remaining > 10;
when remaining ≤ 5 and the reset time is still in the future it sleeps
until resetTime + 1s unless cancelled, and a cancellation yields
ctx.Err(), a signal distinct from any rate-limit signal; and in the band
5 < remaining ≤ 10 it performs no wait. -/
theorem C6_waitIfNeeded (r : RateLimiter) (now : Int) (c : Bool) :
    (r.remaining > 10 → r.waitIfNeeded now c = .noWait) ∧
    (r.remaining ≤ 5 → now < r.resetTime →
      r.waitIfNeeded now true = .err .ctxCancelled ∧
      r.waitIfNeeded now false = .waited (r.resetTime - now + 1) ∧
      (∀ ra rt rc : Int,
        WaitResult.err GoError.ctxCancelled ≠
          WaitResult.err (GoError.rateLimit ra rt rc))) ∧
    (5 < r.remaining → r.remaining ≤ 10 → r.waitIfNeeded now c = .noWait) := by
  refine ⟨?_, ?_, ?_⟩
  · intro h
    simp [RateLimiter.waitIfNeeded, h]
  · intro h5 hlt
    have h10 : ¬ r.remaining > 10 := by omega
    refine ⟨?_, ?_, ?_⟩
    · simp [RateLimiter.waitIfNeeded, h10, h5, hlt]
    · simp [RateLimiter.waitIfNeeded, h10, h5, hlt]
    · intro ra rt rc h
      exact absurd (WaitResult.err.inj h) (by simp)
  · intro h5 h10
    have hgt : ¬ r.remaining > 10 := by omega
    have hle : ¬ (r.remaining ≤ 5 ∧ now < r.resetTime) := by omega
    simp [RateLimiter.waitIfNeeded, hgt, hle]

/-- Witness for C6: the three bands at concrete limiter states
(remaining 100, 3, 7; reset at 50, clock at 0). -/
theorem C6_witness :
    RateLimiter.waitIfNeeded ⟨100, 50, 1000⟩ 0 false = .noWait ∧
    RateLimiter.waitIfNeeded ⟨3, 50, 1000⟩ 0 true = .err .ctxCancelled ∧
    RateLimiter.waitIfNeeded ⟨3, 50, 1000⟩ 0 false = .waited 51 ∧
    RateLimiter.waitIfNeeded ⟨7, 50, 1000⟩ 0 true = .noWait := by
  refine ⟨(C6_waitIfNeeded ⟨100, 50, 1000⟩ 0 false).1 (by decide), ?_, ?_, ?_⟩
  · exact ((C6_waitIfNeeded ⟨3, 50, 1000⟩ 0 true).2.1 (by decide) (by decide)).1
  · exact ((C6_waitIfNeeded ⟨3, 50, 1000⟩ 0 false).2.1 (by decide) (by decide)).2.1
  · exact (C6_waitIfNeeded ⟨7, 50, 1000⟩ 0 true).2.2 (by decide) (by decide)

/-- Claim C7: on a 429 response FetchNewsPage returns a rate-limit signal
carrying retryAfter, the reset time and the remaining-calls count, where
retryAfter is the reset-based value timeUntil(reset) + 1s when the reset
time is still in the future and the configured default delay otherwise;
and the response body is never inspected on this path. -/
theorem C7_status429 (cfg : Config) (rl : RateLimiter) (now : Int)
    (resp : HttpResponse) (h : resp.statusCode = 429) :
    ((fetchNewsPageAfterResponse cfg rl now resp).2 =
      { resp := none
        limits := some (extractRateLimits resp.headers)
        err := some (.rateLimit
          (if now < (extractRateLimits resp.headers).reset
            then (extractRateLimits resp.headers).reset - now + 1
            else cfg.defaultRateLimitDelaySeconds)
          (extractRateLimits resp.headers).reset
          (extractRateLimits resp.headers).remaining) }) ∧
    (∀ b1 b2 : BodyRead,
      fetchNewsPageAfterResponse cfg rl now { resp with body := b1 } =
        fetchNewsPageAfterResponse cfg rl now { resp with body := b2 }) := by
  rcases resp with ⟨sc, hd, b⟩
  simp only at h
  subst h
  constructor
  · simp [fetchNewsPageAfterResponse]
  · intro b1 b2
    simp [fetchNewsPageAfterResponse]

/-- Witness for C7: the concrete 429 response resp429, clock 0, reset
5000 in the future: retryAfter = 5001 = timeUntil(reset) + 1s, and the
result does not depend on the body. -/
theorem C7_witness :
    (fetchNewsPageAfterResponse cfg0 (RateLimiter.init 0) 0 resp429).2 =
      { resp := none, limits := some { limit := 100, remaining := 50, reset := 5000 }
        err := some (.rateLimit 5001 5000 50) } ∧
    fetchNewsPageAfterResponse cfg0 (RateLimiter.init 0) 0
        { resp429 with body := .readError } =
      fetchNewsPageAfterResponse cfg0 (RateLimiter.init 0) 0
        { resp429 with body := .content (.parsed errResp) } := by
  have h := C7_status429 cfg0 (RateLimiter.init 0) 0 resp429 rfl
  exact ⟨by rw [h.1]; rfl, h.2 (.readError) (.content (.parsed errResp))⟩

/-- Claim C9: Close is idempotent — the first invocation flushes pending
deliveries with a 30 s bound, closes the client and marks the producer
closed, returning nil; a Close on an already-closed producer changes
nothing, performs no broker action and returns nil; and a publish on a
closed producer deterministically fails with "producer is closed"
without any broker contact, whatever the environment would do. -/
theorem C9_close_idempotent (p : Producer) (topic msg : String) (env : PublishEnv) :
    closeProducer { closed := false } =
      ({ closed := true }, none, [.flush 30000, .closeClient]) ∧
    closeProducer { closed := true } = ({ closed := true }, none, []) ∧
    (p.closed = true →
      publishWithContext p topic msg env = (p, some .producerClosed, [])) := by
  refine ⟨rfl, rfl, ?_⟩
  intro h
  simp [publishWithContext, h]

/-- Witness for C9: publishing on a closed producer with a
would-be-successful delivery environment still fails without broker
contact. -/
theorem C9_witness :
    publishWithContext { closed := true } "news_files" "m" ⟨false, .delivered⟩ =
      ({ closed := true }, some .producerClosed, []) :=
  (C9_close_idempotent { closed := true } "news_files" "m" ⟨false, .delivered⟩).2.2 rfl

/-- Claim C2 is false on the code: req2 is a valid request (startPage 2
satisfies startPage ≥ 1) with a ready environment, yet the run returns at
once with an empty fetch trace — currentPage starts at 2 above
totalPages = 1, so the loop body, and with it any fetchPage call, never
runs. -/
theorem C2_counterexample :
    req2.validate = none ∧
    downloadAllNewsToFile req2 0 100 [envOk "p1"] =
      .ok ({ currentPage := 2, totalPages := 1,
             result := { totalArticles := 0, pagesDownloaded := 0, filePaths := []
                         startTime := 0, endTime := 100, duration := 100
                         errors := [] }
             fetched := [] }, .completed) :=
  ⟨rfl, rfl⟩

/-- Claim C2, amended: the initialization currentPage := startPage,
totalPages := 1 guarantees at least one fetchPage call only when
startPage = 1 (and the first iteration is not already cancelled); for
every valid request with startPage ≥ 2 the loop body never runs and the
run returns immediately, completed, with zero fetchPage calls. -/
theorem C2_amended (req : DownloadRequest) (st ft : Int) (e : IterEnv)
    (rest : List IterEnv) (hv : req.validate = none) :
    (req.startPage = 1 → e.cancelledAtTop = false →
      ∃ s exit, downloadAllNewsToFile req st ft (e :: rest) = .ok (s, exit) ∧
        s.fetched ≠ []) ∧
    (2 ≤ req.startPage →
      downloadAllNewsToFile req st ft (e :: rest) =
        .ok ({ currentPage := req.startPage, totalPages := 1,
               result := { totalArticles := 0, pagesDownloaded := 0, filePaths := []
                           startTime := st, endTime := ft, duration := ft - st
                           errors := [] }
               fetched := [] }, .completed)) := by
  have hdl : downloadAllNewsToFile req st ft (e :: rest) =
      .ok (runLoop req ft (e :: rest)
        { currentPage := req.startPage, totalPages := 1,
          result := { totalArticles := 0, pagesDownloaded := 0, filePaths := [],
                      startTime := st, endTime := zeroTime, duration := 0,
                      errors := [] },
          fetched := [] }) := by
    unfold downloadAllNewsToFile
    rw [hv]
  constructor
  · intro h1 hc
    refine ⟨(runLoop req ft (e :: rest)
        { currentPage := req.startPage, totalPages := 1,
          result := { totalArticles := 0, pagesDownloaded := 0, filePaths := [],
                      startTime := st, endTime := zeroTime, duration := 0,
                      errors := [] },
          fetched := [] }).1,
      (runLoop req ft (e :: rest)
        { currentPage := req.startPage, totalPages := 1,
          result := { totalArticles := 0, pagesDownloaded := 0, filePaths := [],
                      startTime := st, endTime := zeroTime, duration := 0,
                      errors := [] },
          fetched := [] }).2, ?_, ?_⟩
    · rw [hdl]
    · unfold runLoop
      have hcond : ¬ req.startPage > (1 : Int) := by omega
      rw [if_neg hcond]
      rcases hstep : stepIter req e
          { currentPage := req.startPage, totalPages := 1,
            result := { totalArticles := 0, pagesDownloaded := 0, filePaths := [],
                        startTime := st, endTime := zeroTime, duration := 0,
                        errors := [] },
            fetched := [] } with ⟨s2, ex⟩
      have hf := stepIter_fetched_eq req e
          { currentPage := req.startPage, totalPages := 1,
            result := { totalArticles := 0, pagesDownloaded := 0, filePaths := [],
                        startTime := st, endTime := zeroTime, duration := 0,
                        errors := [] },
            fetched := [] } hc
      rw [hstep] at hf
      simp only at hf
      cases ex with
      | some x =>
          simp only [hstep]
          simp [hf]
      | none =>
          simp only [hstep]
          rcases runLoop_fetched_append req ft rest s2 with ⟨t, ht⟩
          rw [ht, hf]
          simp
  · intro h2
    rw [hdl]
    unfold runLoop
    have hcond : req.startPage > (1 : Int) := by omega
    rw [if_pos hcond]

/-- Witness for C2: the startPage = 1 run fetches at least once, the
startPage = 2 run terminates with zero fetches. -/
theorem C2_witness :
    (∃ s exit, downloadAllNewsToFile req1 0 100 [envOk "p1"] = .ok (s, exit) ∧
      s.fetched ≠ []) ∧
    downloadAllNewsToFile req2 0 100 [envOk "p1"] =
      .ok ({ currentPage := 2, totalPages := 1,
             result := { totalArticles := 0, pagesDownloaded := 0, filePaths := []
                         startTime := 0, endTime := 100, duration := 100
                         errors := [] }
             fetched := [] }, .completed) := by
  refine ⟨(C2_amended req1 0 100 (envOk "p1") [] rfl).1 rfl rfl, ?_⟩
  exact (C2_amended req2 0 100 (envOk "p1") [] rfl).2 (by decide)

/-- Claim C3 is false on the code: in this run the iteration at
currentPage = startPage fetches the page successfully (okResp45,
totalResults 45, pageSize 20) but persistence fails, and the totals are
never updated — totalPages stays 1 and totalArticles stays 0 instead of
ceil(45/20) = 3 and 45, because the update sits after the save in the
loop body. -/
theorem C3_counterexample :
    downloadAllNewsToFile req1 0 100 [envSaveFail] =
      .ok ({ currentPage := 2, totalPages := 1,
             result := { totalArticles := 0, pagesDownloaded := 0, filePaths := []
                         startTime := 0, endTime := 100, duration := 100
                         errors := [.savePageError 1 (.fileOp "write file" "p1")] }
             fetched := [1] }, .completed) :=
  rfl

/-- Claim C3, amended: on the iteration where currentPage == startPage,
if the page is fetched successfully AND persisted successfully, then
totalPages is computed as ceil(totalResults / pageSize) (in Go integer
arithmetic, (totalResults + pageSize - 1) / pageSize) and totalArticles
is set to totalResults; with totalResults = 45 and pageSize = 20 this
yields totalPages = 3. -/
theorem C3_amended (req : DownloadRequest) (env : IterEnv) (s : LoopState)
    (resp : NewsAPIResponse) (path : String)
    (hc : env.cancelledAtTop = false) (hf : env.fetch = .success resp)
    (hs : env.save = .saved path) (hp : s.currentPage = req.startPage) :
    (stepIter req env s).1.totalPages =
      goDiv (resp.totalResults + req.pageSize - 1) req.pageSize ∧
    (stepIter req env s).1.result.totalArticles = resp.totalResults := by
  rcases env with ⟨ct, f, cw, sv, pb, cd⟩
  simp only at hc hf hs
  subst hc
  subst hf
  subst hs
  cases pb <;> cases cd <;>
    (simp only [stepIter, hp]
     split <;> (try split) <;> (try split) <;> simp_all)

/-- Witness for C3: the first-page iteration of req1 (pageSize 20) with
okResp45 (totalResults 45) and a successful save computes totalPages = 3
and totalArticles = 45. -/
theorem C3_witness :
    (stepIter req1 (envOk "p1") s0).1.totalPages = 3 ∧
    (stepIter req1 (envOk "p1") s0).1.result.totalArticles = 45 := by
  have h := C3_amended req1 (envOk "p1") s0 okResp45 "p1" rfl rfl rfl rfl
  exact ⟨h.1.trans (by decide), h.2⟩

/-- The loop run against any number of consecutive rate-limit signals:
state is passed through unchanged (no error recorded, page counter and
every result field untouched) and the loop never exits by itself — the
fetch trace records one retry of the same page per signal. -/
theorem runLoop_rateLimit_replicate (req : DownloadRequest) (ft : Int)
    (ra rt rc : Int) :
    ∀ (n : Nat) (s : LoopState), s.currentPage ≤ s.totalPages →
      runLoop req ft (List.replicate n (rlIterEnv ra rt rc)) s =
        ({ s with fetched := s.fetched ++ List.replicate n s.currentPage },
          .outOfFuel) := by
  intro n
  induction n with
  | zero =>
      intro s h
      unfold runLoop
      have hcond : ¬ s.currentPage > s.totalPages := by omega
      rw [if_neg hcond]
      simp
  | succ n ih =>
      intro s h
      rw [List.replicate_succ]
      unfold runLoop
      have hcond : ¬ s.currentPage > s.totalPages := by omega
      rw [if_neg hcond]
      have hstep : stepIter req (rlIterEnv ra rt rc) s =
          ({ s with fetched := s.fetched ++ [s.currentPage] }, none) := by
        simp [stepIter, rlIterEnv]
      simp only [hstep]
      rw [ih _ (by simpa using h)]
      simp [List.append_assoc, List.replicate_succ]

/-- Claim C4: a rate-limit signal makes the orchestrator retry the same
page with the whole accumulated state unchanged (page counter the same,
nothing appended to errors, no other result field modified), for any
number n of consecutive signals (retries are unbounded: the loop never
exits on its own on this path); and the retry sleep is cancellable — a
cancellation during it returns the accumulated result with a
cancellation exit. -/
theorem C4_rateLimit_retry (req : DownloadRequest) (ft : Int) (s : LoopState)
    (n : Nat) (ra rt rc : Int) (h : s.currentPage ≤ s.totalPages) :
    runLoop req ft (List.replicate n (rlIterEnv ra rt rc)) s =
      ({ s with fetched := s.fetched ++ List.replicate n s.currentPage },
        .outOfFuel) ∧
    stepIter req { rlIterEnv ra rt rc with cancelledDuringRateLimitWait := true } s =
      ({ s with fetched := s.fetched ++ [s.currentPage] }, some .cancelled) := by
  refine ⟨runLoop_rateLimit_replicate req ft ra rt rc n s h, ?_⟩
  simp [stepIter, rlIterEnv]

/-- Witness for C4: two consecutive rate-limit signals on page 1 of req1
leave the fresh state unchanged besides the trace of the two identical
fetches, and a cancelled sleep exits with cancellation. -/
theorem C4_witness :
    runLoop req1 100 (List.replicate 2 (rlIterEnv 7 5000 0)) s0 =
      ({ s0 with fetched := [1, 1] }, .outOfFuel) ∧
    stepIter req1 { rlIterEnv 7 5000 0 with cancelledDuringRateLimitWait := true } s0 =
      ({ s0 with fetched := [1] }, some .cancelled) := by
  have h := C4_rateLimit_retry req1 100 s0 2 7 5000 0 (by decide)
  exact ⟨h.1.trans rfl, h.2.trans rfl⟩

/-- Claim C5: when page startPage (= 1, the only start the loop reaches)
succeeds end to end and page startPage + 1 returns a structured API
error, the run aborts at once: the result holds exactly one file path
(page 1's), pagesDownloaded = 1, the run exits fatally with that error,
and no page beyond startPage + 1 is ever fetched (the fetch trace is
exactly [1, 2], whatever further events the environment held). -/
theorem C5_fatal_on_second_page (req : DownloadRequest) (st ft : Int)
    (resp : NewsAPIResponse) (path : String) (sc : Int) (c m : String)
    (e2 : IterEnv) (rest : List IterEnv)
    (hv : req.validate = none) (h1 : req.startPage = 1)
    (he2c : e2.cancelledAtTop = false)
    (he2f : e2.fetch = .failure (.newsAPIError sc c m))
    (hT : 2 ≤ goDiv (resp.totalResults + req.pageSize - 1) req.pageSize) :
    downloadAllNewsToFile req st ft
        ({ cancelledAtTop := false, fetch := .success resp,
           cancelledDuringRateLimitWait := false, save := .saved path,
           publish := .published, cancelledDuringDelay := false } :: e2 :: rest) =
      .ok ({ currentPage := 2,
             totalPages := goDiv (resp.totalResults + req.pageSize - 1) req.pageSize,
             result := { totalArticles := resp.totalResults, pagesDownloaded := 1,
                         filePaths := [path], startTime := st, endTime := zeroTime,
                         duration := 0,
                         errors := [.pageError 2 (.newsAPIError sc c m)] },
             fetched := [1, 2] }, .fatal 2 (.newsAPIError sc c m)) := by
  rcases e2 with ⟨ct2, f2, cw2, sv2, pb2, cd2⟩
  simp only at he2c he2f
  subst he2c
  subst he2f
  have hdl : downloadAllNewsToFile req st ft
      ({ cancelledAtTop := false, fetch := .success resp,
         cancelledDuringRateLimitWait := false, save := .saved path,
         publish := .published, cancelledDuringDelay := false } ::
        ⟨false, .failure (.newsAPIError sc c m), cw2, sv2, pb2, cd2⟩ :: rest) =
      .ok (runLoop req ft
        ({ cancelledAtTop := false, fetch := .success resp,
           cancelledDuringRateLimitWait := false, save := .saved path,
           publish := .published, cancelledDuringDelay := false } ::
          ⟨false, .failure (.newsAPIError sc c m), cw2, sv2, pb2, cd2⟩ :: rest)
        { currentPage := req.startPage, totalPages := 1,
          result := { totalArticles := 0, pagesDownloaded := 0, filePaths := [],
                      startTime := st, endTime := zeroTime, duration := 0,
                      errors := [] },
          fetched := [] }) := by
    unfold downloadAllNewsToFile
    rw [hv]
  rw [hdl]
  unfold runLoop
  have hc1 : ¬ req.startPage > (1 : Int) := by omega
  rw [if_neg hc1]
  have hd : req.startPage + 1 ≤ goDiv (resp.totalResults + req.pageSize - 1) req.pageSize := by
    omega
  have hstep1 : stepIter req
      { cancelledAtTop := false, fetch := .success resp,
        cancelledDuringRateLimitWait := false, save := .saved path,
        publish := .published, cancelledDuringDelay := false }
      { currentPage := req.startPage, totalPages := 1,
        result := { totalArticles := 0, pagesDownloaded := 0, filePaths := [],
                    startTime := st, endTime := zeroTime, duration := 0,
                    errors := [] },
        fetched := [] } =
      ({ currentPage := req.startPage + 1,
         totalPages := goDiv (resp.totalResults + req.pageSize - 1) req.pageSize,
         result := { totalArticles := resp.totalResults, pagesDownloaded := 1,
                     filePaths := [path], startTime := st, endTime := zeroTime,
                     duration := 0, errors := [] },
         fetched := [req.startPage] }, none) := by
    simp [stepIter, hd]
  simp only [hstep1]
  unfold runLoop
  have hc2 : ¬ req.startPage + 1 >
      goDiv (resp.totalResults + req.pageSize - 1) req.pageSize := by omega
  rw [if_neg hc2]
  have hstep2 : stepIter req
      ⟨false, .failure (.newsAPIError sc c m), cw2, sv2, pb2, cd2⟩
      { currentPage := req.startPage + 1,
        totalPages := goDiv (resp.totalResults + req.pageSize - 1) req.pageSize,
        result := { totalArticles := resp.totalResults, pagesDownloaded := 1,
                    filePaths := [path], startTime := st, endTime := zeroTime,
                    duration := 0, errors := [] },
        fetched := [req.startPage] } =
      ({ currentPage := req.startPage + 1,
         totalPages := goDiv (resp.totalResults + req.pageSize - 1) req.pageSize,
         result := { totalArticles := resp.totalResults, pagesDownloaded := 1,
                     filePaths := [path], startTime := st, endTime := zeroTime,
                     duration := 0,
                     errors := [.pageError (req.startPage + 1)
                       (.newsAPIError sc c m)] },
         fetched := [req.startPage, req.startPage + 1] },
        some (.fatal (req.startPage + 1) (.newsAPIError sc c m))) := by
    simp [stepIter]
  simp only [hstep2]
  rw [h1]
  norm_num

/-- Witness for C5: req1 with okResp45 on page 1 and a structured 401 on
page 2 ends fatally with one file path, one page downloaded, and fetch
trace [1, 2]. -/
theorem C5_witness :
    downloadAllNewsToFile req1 0 100 [envOk "p1", envFatal] =
      .ok ({ currentPage := 2, totalPages := 3
             result := { totalArticles := 45, pagesDownloaded := 1
                         filePaths := ["p1"], startTime := 0, endTime := zeroTime
                         duration := 0
                         errors := [.pageError 2 (.newsAPIError 401 "apiKeyInvalid" "bad")] }
             fetched := [1, 2] }, .fatal 2 (.newsAPIError 401 "apiKeyInvalid" "bad")) := by
  have h := C5_fatal_on_second_page req1 0 100 okResp45 "p1" 401 "apiKeyInvalid" "bad"
    envFatal [] rfl rfl rfl rfl (by decide)
  exact h.trans rfl

/-- Claim C8: when the save succeeds but the queue publish fails, the
iteration still appends the file path, still increments pagesDownloaded,
appends the publish failure to errors, advances the page counter, and
does not exit the loop — a publish failure never aborts the run. -/
theorem C8_publish_failure (req : DownloadRequest) (env : IterEnv) (s : LoopState)
    (resp : NewsAPIResponse) (path : String) (e : GoError)
    (hc : env.cancelledAtTop = false) (hf : env.fetch = .success resp)
    (hs : env.save = .saved path) (hp : env.publish = .publishFailed e)
    (hd : env.cancelledDuringDelay = false) :
    (stepIter req env s).2 = none ∧
    (stepIter req env s).1.result.filePaths = s.result.filePaths ++ [path] ∧
    (stepIter req env s).1.result.pagesDownloaded = s.result.pagesDownloaded + 1 ∧
    (stepIter req env s).1.result.errors =
      s.result.errors ++ [.kafkaPublishError path e] ∧
    (stepIter req env s).1.currentPage = s.currentPage + 1 := by
  rcases env with ⟨ct, f, cw, sv, pb, cd⟩
  simp only at hc hf hs hp hd
  subst hc
  subst hf
  subst hs
  subst hp
  subst hd
  simp only [stepIter]
  split <;> (try split) <;> (try split) <;> simp_all

/-- Witness for C8: a concrete publish failure on page 1 of req1 keeps
the path and the page count and merely records a KafkaError. -/
theorem C8_witness :
    (stepIter req1 envPubFail s0).2 = none ∧
    (stepIter req1 envPubFail s0).1.result.filePaths = ["p1"] ∧
    (stepIter req1 envPubFail s0).1.result.pagesDownloaded = 1 ∧
    (stepIter req1 envPubFail s0).1.result.errors =
      [.kafkaPublishError "p1" (.kafka "news_files" "localhost:9092")] ∧
    (stepIter req1 envPubFail s0).1.currentPage = 2 := by
  have h := C8_publish_failure req1 envPubFail s0 okResp45 "p1"
    (.kafka "news_files" "localhost:9092") rfl rfl rfl rfl rfl
  exact ⟨h.1, h.2.1.trans rfl, h.2.2.1.trans rfl, h.2.2.2.1.trans rfl,
    h.2.2.2.2.trans rfl⟩

/-- Claim C10: whenever the run returns early with a cancellation or a
fatal structured API error, the returned result's endTime and duration
are still their zero values — they are stamped only on the normal exit
of the loop. -/
theorem C10_early_exit_unstamped (req : DownloadRequest) (st ft : Int)
    (envs : List IterEnv) (s : LoopState) (ex : RunExit)
    (h : downloadAllNewsToFile req st ft envs = .ok (s, ex))
    (hx : ex = .cancelled ∨ ∃ p e, ex = .fatal p e) :
    s.result.endTime = zeroTime ∧ s.result.duration = 0 := by
  rcases hval : req.validate with _ | e0
  · simp only [downloadAllNewsToFile, hval] at h
    have hrun : runLoop req ft envs
        { currentPage := req.startPage, totalPages := 1
          result := { totalArticles := 0, pagesDownloaded := 0, filePaths := []
                      startTime := st, endTime := zeroTime, duration := 0
                      errors := [] }
          fetched := [] } = (s, ex) := by
      exact Except.ok.inj h
    have hne : (runLoop req ft envs
        { currentPage := req.startPage, totalPages := 1
          result := { totalArticles := 0, pagesDownloaded := 0, filePaths := []
                      startTime := st, endTime := zeroTime, duration := 0
                      errors := [] }
          fetched := [] }).2 ≠ .completed := by
      rw [hrun]
      rcases hx with hx | ⟨p, e, hx⟩ <;> subst hx <;> simp
    have hu := runLoop_unstamped req ft envs _ hne
    rw [hrun] at hu
    exact hu
  · simp only [downloadAllNewsToFile, hval] at h
    exact absurd h (by simp)

/-- Witness for C10: a run of req1 cancelled before its first fetch
returns the untouched initial result: endTime is the zero time and
duration is 0. -/
theorem C10_witness :
    downloadAllNewsToFile req1 0 100 [envCancel] = .ok (s0, .cancelled) ∧
    s0.result.endTime = zeroTime ∧ s0.result.duration = 0 := by
  have h : downloadAllNewsToFile req1 0 100 [envCancel] = .ok (s0, .cancelled) := rfl
  exact ⟨h, C10_early_exit_unstamped req1 0 100 [envCancel] s0 .cancelled h (Or.inl rfl)⟩

end NewsAgg
